import Mathlib

/-!
Verification development for the link-inventory/link-checking utilities
(`util/links-enum.py` and `util/links-check.py`).

The Python functions are shallowly embedded as executable Lean definitions.
Strings are modelled through their character lists (`String.data`); the
`os.path` POSIX primitives (`dirname`, `join`, `normpath`) are translated
from CPython's `posixpath` implementations, which is what the scripts call.
-/

/-- Quote characters, written via code points so that the development stays
free of quote-escaping issues: 34 is the double quote, 39 the single quote. -/
def dquoteChar : Char := Char.ofNat 34

def squoteChar : Char := Char.ofNat 39

/-- Model of Python `s.split(c)[0]`: the characters strictly before the first
occurrence of `c` (the whole list when `c` does not occur). -/
def takeUntilChar (c : Char) : List Char → List Char
  | [] => []
  | x :: xs => if x = c then [] else x :: takeUntilChar c xs

/-- Model of Python `s.startswith('/')` at the character-list level. -/
def startsSlash : List Char → Bool
  | c :: _ => c == '/'
  | [] => false

/-- Model of `s.startswith('//')`. -/
def startsSlash2 : List Char → Bool
  | c :: d :: _ => c == '/' && d == '/'
  | _ => false

/-- Model of `s.startswith('///')`. -/
def startsSlash3 : List Char → Bool
  | c :: d :: e :: _ => c == '/' && d == '/' && e == '/'
  | _ => false

/-- Model of CPython `posixpath.dirname`: keep everything up to and including
the last slash, then strip trailing slashes unless the head is all slashes. -/
def dirnameList (p : List Char) : List Char :=
  let head := (p.reverse.dropWhile (fun c => !(c == '/'))).reverse
  if head ≠ [] ∧ head.any (fun c => !(c == '/')) then
    (head.reverse.dropWhile (fun c => c == '/')).reverse
  else head

/-- Model of CPython `posixpath.join` restricted to two arguments, as used by
`normalize_path`: a second argument starting with a slash replaces the first
argument entirely. -/
def joinList (a b : List Char) : List Char :=
  if startsSlash b then b
  else if a = [] ∨ a.getLast? = some '/' then a ++ b
  else a ++ '/' :: b

/-- Model of Python `s.split(c)` (full split on a single character). -/
def splitChar (c : Char) : List Char → List (List Char)
  | [] => [[]]
  | x :: xs =>
    if x = c then [] :: splitChar c xs
    else
      match splitChar c xs with
      | [] => [[x]]
      | h :: t => (x :: h) :: t

/-- Model of `sep.join(comps)` for a single-character separator. -/
def intercalateChar (c : Char) : List (List Char) → List Char
  | [] => []
  | [x] => x
  | x :: y :: t => x ++ c :: intercalateChar c (y :: t)

/-- Component-normalisation loop of CPython `posixpath.normpath`: drop empty
and `.` components, and resolve `..` against the accumulated components. -/
def normCompsAux (initial_slashes : Nat) : List (List Char) → List (List Char) → List (List Char)
  | new_comps, [] => new_comps
  | new_comps, comp :: rest =>
    if comp = [] ∨ comp = ['.'] then normCompsAux initial_slashes new_comps rest
    else if comp ≠ ['.', '.'] ∨ (initial_slashes = 0 ∧ new_comps = []) ∨
        new_comps.getLast? = some ['.', '.'] then
      normCompsAux initial_slashes (new_comps ++ [comp]) rest
    else if new_comps ≠ [] then normCompsAux initial_slashes new_comps.dropLast rest
    else normCompsAux initial_slashes new_comps rest

/-- Model of CPython `posixpath.normpath` over character lists. -/
def normpathList (p : List Char) : List Char :=
  if p = [] then ['.']
  else
    let initial_slashes : Nat :=
      if startsSlash p then (if startsSlash2 p && !(startsSlash3 p) then 2 else 1) else 0
    let comps := splitChar '/' p
    let new_comps := normCompsAux initial_slashes [] comps
    let joined := intercalateChar '/' new_comps
    let path := List.replicate initial_slashes '/' ++ joined
    if path = [] then ['.'] else path

/-- String-level wrapper for `posixpath.dirname`. -/
def dirname (p : String) : String := ⟨dirnameList p.data⟩

/-- String-level wrapper for the two-argument `posixpath.join`. -/
def join_path (a b : String) : String := ⟨joinList a.data b.data⟩

/-- String-level wrapper for `posixpath.normpath`. -/
def normpath (p : String) : String := ⟨normpathList p.data⟩

/-- Embedding of `normalize_path` from `util/links-check.py` (lines 40-64):
`link.split('#')[0].split('?')[0]`, self-reference on empty remainder, and
otherwise `os.path.normpath(os.path.join(source_dir, remainder))`. -/
def normalize_path (link source_file_path : String) : String :=
  let source_dir := dirname source_file_path
  let link_without_fragment : String := ⟨takeUntilChar '?' (takeUntilChar '#' link.data)⟩
  if link_without_fragment = "" then source_file_path
  else normpath (join_path source_dir link_without_fragment)

/-- Path resolution as worded by the specification (section 4.3): strip
everything after the first `#` or `?`; an empty remainder resolves to the
source document itself; otherwise join against the source document's
containing directory and normalize. -/
def normalize_path_spec (link source_file_path : String) : String :=
  let remainder : String := ⟨link.data.takeWhile (fun c => !(c == '#' || c == '?'))⟩
  if remainder = "" then source_file_path
  else normpath (join_path (dirname source_file_path) remainder)

theorem takeUntil_fragment_query_eq_takeWhile (l : List Char) :
    takeUntilChar '?' (takeUntilChar '#' l) =
      l.takeWhile (fun c => !(c == '#' || c == '?')) := by
  induction l with
  | nil => rfl
  | cons c l ih =>
    by_cases h1 : c = '#'
    · subst h1
      simp [takeUntilChar, List.takeWhile]
    · by_cases h2 : c = '?'
      · subst h2
        simp [takeUntilChar, List.takeWhile]
      · have b1 : (c == '#') = false := beq_eq_false_iff_ne.mpr h1
        have b2 : (c == '?') = false := beq_eq_false_iff_ne.mpr h2
        simp [takeUntilChar, h1, h2, List.takeWhile_cons, b1, b2, ih]

example : normalize_path "a.png#frag?x=1" "dir/d.html" = "dir/a.png" := by decide

example : normalize_path "#top" "dir/d.html" = "dir/d.html" := by decide

example : normalize_path "../x/./y.txt" "a/b/c.html" = "a/x/y.txt" := by decide

theorem takeUntilChar_cons_slash (c : Char) (rest : List Char) (h : ('/' : Char) ≠ c) :
    takeUntilChar c ('/' :: rest) = '/' :: takeUntilChar c rest := by
  rw [takeUntilChar, if_neg h]

theorem normpathList_headD (l : List Char) :
    (normpathList ('/' :: l)).headD ' ' = '/' := by
  rw [normpathList, if_neg (List.cons_ne_nil _ _)]
  simp only [startsSlash, beq_self_eq_true, if_true]
  split
  · simp [List.replicate]
  · simp [List.replicate]

theorem normalize_path_absolute (rest : List Char) (src : String) :
    normalize_path ⟨'/' :: rest⟩ src =
      normpath ⟨'/' :: takeUntilChar '?' (takeUntilChar '#' rest)⟩ := by
  rw [normalize_path]
  have h1 : takeUntilChar '#' (String.data ⟨'/' :: rest⟩) = '/' :: takeUntilChar '#' rest :=
    takeUntilChar_cons_slash _ _ (by decide)
  have h2 : takeUntilChar '?' ('/' :: takeUntilChar '#' rest) =
      '/' :: takeUntilChar '?' (takeUntilChar '#' rest) :=
    takeUntilChar_cons_slash _ _ (by decide)
  simp only [h1, h2]
  rw [if_neg (by simp [String.ext_iff])]
  have h3 : join_path (dirname src) ⟨'/' :: takeUntilChar '?' (takeUntilChar '#' rest)⟩ =
      ⟨'/' :: takeUntilChar '?' (takeUntilChar '#' rest)⟩ := by
    rw [join_path]
    show (⟨joinList (dirname src).data ('/' :: _)⟩ : String) = _
    rw [joinList, if_pos (by simp [startsSlash])]
  rw [h3]

/-- C6: `normalize_path` strips everything after the first `#` and after the
first `?`, resolves an empty remainder to the source document itself, and
otherwise joins against the source document's directory and collapses
`.`/`..` — proved as agreement with the specification-worded resolver
`normalize_path_spec` on all inputs, together with the concrete instance
`"a.png#frag?x=1"` resolved against `dir/d.html` giving `dir/a.png`. -/
theorem normalize_path_follows_spec :
    (∀ link source_file_path : String,
        normalize_path link source_file_path = normalize_path_spec link source_file_path)
    ∧ normalize_path "a.png#frag?x=1" "dir/d.html" = "dir/a.png" := by
  constructor
  · intro link src
    simp only [normalize_path, normalize_path_spec, takeUntil_fragment_query_eq_takeWhile]
  · decide

/-- C10: a local link that begins with `/` discards the source document's
directory entirely: the result equals `normpath` of the stripped link, does
not depend on the source document at all, and is an absolute (filesystem-root)
path — it is never reinterpreted relative to the repository root. -/
theorem absolute_link_discards_source_dir :
    ∀ (rest : List Char) (src1 src2 : String),
      normalize_path ⟨'/' :: rest⟩ src1 =
          normpath ⟨takeUntilChar '?' (takeUntilChar '#' ('/' :: rest))⟩
        ∧ normalize_path ⟨'/' :: rest⟩ src1 = normalize_path ⟨'/' :: rest⟩ src2
        ∧ (normalize_path ⟨'/' :: rest⟩ src1).data.headD ' ' = '/' := by
  intro rest src1 src2
  have h1 : takeUntilChar '#' ('/' :: rest) = '/' :: takeUntilChar '#' rest :=
    takeUntilChar_cons_slash _ _ (by decide)
  have h2 : takeUntilChar '?' ('/' :: takeUntilChar '#' rest) =
      '/' :: takeUntilChar '?' (takeUntilChar '#' rest) :=
    takeUntilChar_cons_slash _ _ (by decide)
  refine ⟨?_, ?_, ?_⟩
  · rw [normalize_path_absolute, h1, h2]
  · rw [normalize_path_absolute, normalize_path_absolute]
  · rw [normalize_path_absolute]
    exact normpathList_headD _

example : normalize_path "/images/logo.png" "repo/docs/d.html" = "/images/logo.png" := by decide

/-!
Link extraction (`util/links-enum.py`, `extract_links_from_html`, lines 26-46).

The regex `attr=["\x27](.*?)["\x27]` with `re.IGNORECASE` is embedded
directly: at each position the scanner tries to match the attribute name
case-insensitively, then one quote character (either kind), then a lazy
capture of non-newline characters up to the next quote character (again of
either kind).  `re.findall` semantics: scan left to right, non-overlapping,
resuming after the end of each match.
-/

/-- Case-insensitive literal match of `attr` at the head of `s`; returns the
remaining characters on success. -/
def matchCI : List Char → List Char → Option (List Char)
  | [], s => some s
  | _ :: _, [] => none
  | a :: as, c :: cs => if c.toLower = a.toLower then matchCI as cs else none

/-- Lazy capture of `(.*?)["\x27]`: collect characters (no newline, since `.`
does not match a newline) up to the first quote character of either kind. -/
def scanCapture : List Char → Option (List Char × List Char)
  | [] => none
  | c :: cs =>
    if c = dquoteChar ∨ c = squoteChar then some ([], cs)
    else if c = '\n' then none
    else
      match scanCapture cs with
      | some (cap, rest) => some (c :: cap, rest)
      | none => none

/-- Attempt a full match of `attr=["\x27](.*?)["\x27]` at the head of `s`. -/
def matchAttrAt (attr : List Char) (s : List Char) : Option (List Char × List Char) :=
  match matchCI attr s with
  | none => none
  | some s2 =>
    match s2 with
    | [] => none
    | q :: s3 => if q = dquoteChar ∨ q = squoteChar then scanCapture s3 else none

/-- Fuel-indexed scan implementing `re.findall`: every step consumes at least
one character of the text, so fuel equal to the text length never runs out
and the fuel argument does not change the meaning. -/
def findall_aux (attr : List Char) : Nat → List Char → List (List Char)
  | 0, _ => []
  | _ + 1, [] => []
  | fuel + 1, c :: cs =>
    match matchAttrAt attr (c :: cs) with
    | some (cap, rest) => cap :: findall_aux attr fuel rest
    | none => findall_aux attr fuel cs

/-- Model of `re.findall(attr + quoted-capture pattern, text, re.IGNORECASE)`. -/
def findall (attr : List Char) (text : List Char) : List (List Char) :=
  findall_aux attr text.length text

/-- First-occurrence deduplication, as done with `seen`/`unique_links` in the
source (lines 39-46). -/
def dedupeLinks (seen : List (List Char)) : List (List Char) → List (List Char)
  | [] => []
  | l :: ls => if l ∈ seen then dedupeLinks seen ls else l :: dedupeLinks (l :: seen) ls

/-- Character-list core of `extract_links_from_html`: all `href` attribute
values, then all `src` attribute values, duplicates suppressed keeping the
first occurrence of that concatenated stream. -/
def extract_links_core (content : List Char) : List (List Char) :=
  dedupeLinks [] (findall ['h', 'r', 'e', 'f', '='] content ++ findall ['s', 'r', 'c', '='] content)

/-- Embedding of `extract_links_from_html` over the document's text (the
Python function reads the file; a read failure yields `[]`, which is outside
this pure model). -/
def extract_links_from_html (content : String) : List String :=
  (extract_links_core content.data).map (fun l => ⟨l⟩)

/-- Document in which a `src` attribute occurs before an `href` attribute. -/
def doc_src_before_href : String := "<img src=\"a\"><a href=\"b\">"

example : extract_links_from_html doc_src_before_href = ["b", "a"] := by decide

example : extract_links_from_html "<a href=\"x\"><a HREF=\"x\"><img src=\"y\">" = ["x", "y"] := by
  decide

theorem dedupeLinks_sublist (seen l : List (List Char)) :
    List.Sublist (dedupeLinks seen l) l := by
  induction l generalizing seen with
  | nil => simp [dedupeLinks]
  | cons y ys ih =>
    by_cases h : y ∈ seen
    · rw [dedupeLinks, if_pos h]
      exact (ih seen).cons y
    · rw [dedupeLinks, if_neg h]
      exact (ih (y :: seen)).cons₂ y

theorem dedupeLinks_nodup_avoid (l seen : List (List Char)) :
    (dedupeLinks seen l).Nodup ∧ ∀ x ∈ dedupeLinks seen l, x ∉ seen := by
  induction l generalizing seen with
  | nil => simp [dedupeLinks]
  | cons y ys ih =>
    by_cases h : y ∈ seen
    · rw [dedupeLinks, if_pos h]
      exact ih seen
    · rw [dedupeLinks, if_neg h]
      obtain ⟨hnd, havoid⟩ := ih (y :: seen)
      refine ⟨List.nodup_cons.mpr ⟨fun hy => (havoid y hy) (List.mem_cons_self _ _), hnd⟩, ?_⟩
      intro x hx
      rcases List.mem_cons.mp hx with rfl | hx'
      · exact h
      · exact fun hxseen => (havoid x hx') (List.mem_cons_of_mem _ hxseen)

theorem mem_dedupeLinks_of_mem (l : List (List Char)) :
    ∀ (seen : List (List Char)) (x : List Char), x ∈ l → x ∉ seen →
      x ∈ dedupeLinks seen l := by
  induction l with
  | nil =>
    intro seen x hx _
    cases hx
  | cons y ys ih =>
    intro seen x hx hs
    by_cases h : y ∈ seen
    · rw [dedupeLinks, if_pos h]
      rcases List.mem_cons.mp hx with rfl | hx'
      · exact absurd h hs
      · exact ih seen x hx' hs
    · rw [dedupeLinks, if_neg h]
      rcases List.mem_cons.mp hx with rfl | hx'
      · exact List.mem_cons_self _ _
      · by_cases hxy : x = y
        · subst hxy
          exact List.mem_cons_self _ _
        · exact List.mem_cons_of_mem _ (ih (y :: seen) x hx' (by simp [hxy, hs]))

/-- Document text that shows `["a", "b"]` is not the extraction order: the
`src` value `a` appears before the `href` value `b` in the text, yet the
extractor lists all `href` values first. -/
theorem extract_links_order_counterexample :
    extract_links_from_html doc_src_before_href = ["b", "a"]
    ∧ extract_links_from_html doc_src_before_href ≠ ["a", "b"] := by
  constructor
  · decide
  · decide

/-- C4 (amended): extraction returns all `href` attribute values in order of
appearance followed by all `src` attribute values in order of appearance —
not global document order — with exact-duplicate strings after the first
occurrence of that href-then-src stream suppressed: the result is duplicate
free, is a subsequence of the href-then-src stream, and keeps exactly the
members of that stream. -/
theorem extract_links_href_then_src :
    (∀ content : List Char,
        (extract_links_core content).Nodup
        ∧ List.Sublist (extract_links_core content)
            (findall ['h', 'r', 'e', 'f', '='] content ++ findall ['s', 'r', 'c', '='] content)
        ∧ (∀ x, x ∈ findall ['h', 'r', 'e', 'f', '='] content ++
              findall ['s', 'r', 'c', '='] content ↔ x ∈ extract_links_core content))
    ∧ extract_links_from_html doc_src_before_href = ["b", "a"] := by
  refine ⟨?_, by decide⟩
  intro content
  refine ⟨(dedupeLinks_nodup_avoid _ _).1, dedupeLinks_sublist _ _, ?_⟩
  intro x
  constructor
  · intro hx
    exact mem_dedupeLinks_of_mem _ _ _ hx (by simp)
  · intro hx
    exact (dedupeLinks_sublist _ _).subset hx

/-!
Repository scan (`util/links-enum.py`, `scan_repository`, lines 54-113) and
the task-collection phase of `check_links` (`util/links-check.py`,
lines 402-436, 479-489).
-/

/-- One file yielded by `os.walk`, in walk order, after the hidden-directory
pruning that `os.walk` performs through `dirs[:] = ...`. -/
structure WalkFile where
  filename : String
  path : String
  content : String
deriving DecidableEq

/-- One entry of `links-list.json` (`file_entry` in the source). -/
structure FileEntry where
  path : String
  links : List String
  link_count : Nat
  repeated_links : List String
  repeated_count : Nat
  total_links_in_file : Nat
deriving DecidableEq

/-- Model of `filename.startswith('.')`. -/
def headIsChar (c : Char) (s : String) : Bool :=
  match s.data with
  | d :: _ => d == c
  | [] => false

/-- Model of `filename.endswith(('.htm', '.html'))`. -/
def ends_with_html (filename : String) : Bool :=
  List.isPrefixOf ".htm".data.reverse filename.data.reverse
    || List.isPrefixOf ".html".data.reverse filename.data.reverse

/-- Classification loop of `scan_repository` (lines 92-97): walk the
extracted links in order, sending first global appearances to `new_links`
and the rest to `repeated_links`, threading the `global_seen_links` set.
Returns `(new_links, repeated_links, updated_seen)`. -/
def split_links (seen : List String) : List String → List String × List String × List String
  | [] => ([], [], seen)
  | l :: ls =>
    if l ∈ seen then
      let r := split_links seen ls
      (r.1, l :: r.2.1, r.2.2)
    else
      let r := split_links (l :: seen) ls
      (l :: r.1, r.2.1, r.2.2)

/-- Walk loop of `scan_repository`: skip hidden files and the script itself,
extract from `.htm`/`.html` files, and build one `FileEntry` per kept file,
threading the global seen-set across files in walk order. -/
def scan_repo_aux (seen : List String) : List WalkFile → List FileEntry
  | [] => []
  | f :: fs =>
    if headIsChar '.' f.filename ∨ f.filename = "links-enum.py" then scan_repo_aux seen fs
    else
      let all_links := if ends_with_html f.filename then extract_links_from_html f.content else []
      let r := split_links seen all_links
      { path := f.path, links := r.1, link_count := r.1.length,
        repeated_links := r.2.1, repeated_count := r.2.1.length,
        total_links_in_file := all_links.length } :: scan_repo_aux r.2.2 fs

/-- Lexicographic comparison of strings by code point, the order Python uses
for `str`: `a ≤ b`. -/
def charListLe : List Char → List Char → Bool
  | [], _ => true
  | _ :: _, [] => false
  | a :: as, b :: bs => if a = b then charListLe as bs else decide (a.toNat < b.toNat)

/-- Embedding of `scan_repository`: the walk loop followed by the final
stable sort of the entries by path (line 111); insertion sort with a
non-strict comparison is stable, like Python `list.sort`. -/
def scan_repository (files : List WalkFile) : List FileEntry :=
  List.insertionSort (fun a b => charListLe a.path.data b.path.data = true) (scan_repo_aux [] files)

/-- Model of the `scheme` attribute of a *successful* `urllib.parse.urlparse`
call: the lowercased text before the first colon, provided it is nonempty,
starts with an ASCII letter, and consists of scheme characters; otherwise
the empty string.  `urlparse` itself is fallible — it raises
`ValueError('Invalid IPv6 URL')` on mismatched netloc brackets — and that
raise path is modelled separately by `urlparse_invalid_ipv6` below. -/
def urlscheme (url : String) : String :=
  let pre := takeUntilChar ':' url.data
  if url.data.contains ':' ∧ pre ≠ [] ∧ (pre.headD ' ').isAlpha = true ∧
      pre.all (fun c => c.isAlpha || c.isDigit || c == '+' || c == '-' || c == '.') then
    ⟨pre.map Char.toLower⟩
  else ""

/-- Embedding of `is_external_link` from `util/links-check.py` (lines 26-37). -/
def is_external_link (link : String) : Bool :=
  ["http", "https", "ftp", "mailto", "tel", "javascript"].contains (urlscheme link)

/-- Model of Python `link.strip()` restricted to whitespace relevant here. -/
def pystrip (s : String) : String :=
  ⟨((s.data.dropWhile Char.isWhitespace).reverse.dropWhile Char.isWhitespace).reverse⟩

/-- Model of `link.startswith(('javascript:', 'mailto:', 'tel:'))`. -/
def starts_with_skippable (link : String) : Bool :=
  List.isPrefixOf "javascript:".data link.data
    || List.isPrefixOf "mailto:".data link.data
    || List.isPrefixOf "tel:".data link.data

/-- Task-collection projection of the per-link loop in `check_links`
(lines 417-436): empty/whitespace links, pure-anchor links, and
javascript/mailto/tel links produce no probe task; every other external
link contributes one `(source_path, link)` task, in manifest order.  Local
links take the synchronous filesystem path instead and contribute no
probe task. -/
def collect_external_tasks (files : List FileEntry) : List (String × String) :=
  files.flatMap (fun fe =>
    fe.links.filterMap (fun link =>
      if link = "" ∨ pystrip link = "" then none
      else if headIsChar '#' link then none
      else if is_external_link link then
        (if starts_with_skippable link then none else some (fe.path, link))
      else none))

/-- End-to-end pipeline from walked files to external probe tasks:
`links-enum.py` writes the manifest, `links-check.py` reads it back and
collects the probe tasks. -/
def pipeline_tasks (files : List WalkFile) : List (String × String) :=
  collect_external_tasks (scan_repository files)

/-- Two documents that both contain the same external link. -/
def walk_two_docs : List WalkFile :=
  [⟨"a.html", "a.html", "<a href=\"https://example.com/x\">"⟩,
   ⟨"b.html", "b.html", "<a href=\"https://example.com/x\">"⟩]

example : pipeline_tasks walk_two_docs = [("a.html", "https://example.com/x")] := by decide

theorem split_links_inv (ls : List String) :
    ∀ seen : List String,
      (split_links seen ls).1.Nodup
      ∧ (∀ x ∈ (split_links seen ls).1, x ∉ seen)
      ∧ (∀ x, x ∈ seen ∨ x ∈ (split_links seen ls).1 → x ∈ (split_links seen ls).2.2) := by
  induction ls with
  | nil =>
    intro seen
    simp [split_links]
  | cons l ls ih =>
    intro seen
    by_cases h : l ∈ seen
    · rw [split_links, if_pos h]
      obtain ⟨h1, h2, h3⟩ := ih seen
      exact ⟨h1, h2, h3⟩
    · rw [split_links, if_neg h]
      obtain ⟨h1, h2, h3⟩ := ih (l :: seen)
      refine ⟨?_, ?_, ?_⟩
      · exact List.nodup_cons.mpr
          ⟨fun hl => (h2 l hl) (List.mem_cons_self _ _), h1⟩
      · intro x hx
        rcases List.mem_cons.mp hx with rfl | hx'
        · exact h
        · exact fun hxs => (h2 x hx') (List.mem_cons_of_mem _ hxs)
      · intro x hx
        rcases hx with hxs | hxn
        · exact h3 x (Or.inl (List.mem_cons_of_mem _ hxs))
        · rcases List.mem_cons.mp hxn with rfl | hx'
          · exact h3 x (Or.inl (List.mem_cons_self _ _))
          · exact h3 x (Or.inr hx')

theorem scan_repo_aux_links_nodup (fs : List WalkFile) :
    ∀ seen : List String,
      (((scan_repo_aux seen fs).map FileEntry.links).flatten).Nodup
      ∧ (∀ x ∈ ((scan_repo_aux seen fs).map FileEntry.links).flatten, x ∉ seen) := by
  induction fs with
  | nil =>
    intro seen
    simp [scan_repo_aux]
  | cons f fs ih =>
    intro seen
    by_cases hskip : headIsChar '.' f.filename ∨ f.filename = "links-enum.py"
    · rw [scan_repo_aux, if_pos hskip]
      exact ih seen
    · rw [scan_repo_aux, if_neg hskip]
      obtain ⟨s1, s2, s3⟩ := split_links_inv
        (if ends_with_html f.filename then extract_links_from_html f.content else []) seen
      obtain ⟨ih1, ih2⟩ := ih (split_links seen
        (if ends_with_html f.filename then extract_links_from_html f.content else [])).2.2
      simp only [List.map_cons, List.flatten_cons]
      rw [List.nodup_append]
      refine ⟨⟨s1, ih1, ?_⟩, ?_⟩
      · intro x hx hx2
        exact (ih2 x hx2) (s3 x (Or.inr hx))
      · intro x hx
        rcases List.mem_append.mp hx with hx1 | hx2
        · exact s2 x hx1
        · exact fun hxs => (ih2 x hx2) (s3 x (Or.inl hxs))

theorem scan_repository_links_nodup (files : List WalkFile) :
    (((scan_repository files).map FileEntry.links).flatten).Nodup := by
  have hperm : (scan_repository files).Perm (scan_repo_aux [] files) :=
    List.perm_insertionSort _ _
  exact ((hperm.map _).flatten).nodup_iff.mpr ((scan_repo_aux_links_nodup files []).1)

/-- Concrete refutation for C8: with two documents both containing the link
`https://example.com/x`, the second document's occurrence produces no probe
task — the pipeline runs exactly one probe, attributed to the first document
in walk order. -/
theorem pipeline_tasks_counterexample :
    pipeline_tasks walk_two_docs = [("a.html", "https://example.com/x")]
    ∧ ("b.html", "https://example.com/x") ∉ pipeline_tasks walk_two_docs := by
  constructor
  · decide
  · decide

/-- C8 (amended): the pipeline deduplicates external links globally, not per
occurrence: `scan_repository` records a link under `links` only the first
time the destination is seen across all documents (later occurrences go to
`repeated_links`, which `check_links` never reads), so the manifest's
`links` fields are globally duplicate free and a link referenced from
several documents is probed at most once, attributed to the first document
in walk order. -/
theorem pipeline_dedups_globally :
    (∀ files : List WalkFile, (((scan_repository files).map FileEntry.links).flatten).Nodup)
    ∧ pipeline_tasks walk_two_docs = [("a.html", "https://example.com/x")] :=
  ⟨scan_repository_links_nodup, by decide⟩

/-!
External probe (`util/links-check.py`, `check_external_link`, lines 148-278,
and `get_http_error_details`, lines 281-335).

The network is modelled as an oracle (`Network`) giving the result of each
of the four requests the function can issue: the primary HEAD, the GET
fallback, the session GET with enhanced headers, and the GET with
certificate verification disabled.  Each result is either an HTTP response
or one of the `requests` exception categories that the function handles;
the bare `except Exception` at the end makes this exception set exhaustive
for the model.  Header contents do not influence control flow except for
the `Server`/`cf-ray` inspection in `get_http_error_details`, so a response
is modelled by its status code and those two header facts.
-/

/-- Final HTTP response of one request, as far as the checker inspects it. -/
structure HttpResponse where
  status_code : Nat
  server : String
  cf_ray : Bool
deriving DecidableEq

/-- Result of one request: a response, or the exception the `requests` call
raised, keyed by the exception classes the source handles (most specific
first, matching Python's class-hierarchy dispatch order). -/
inductive NetResult where
  | resp (r : HttpResponse)
  | sslError (msg : String)
  | timeoutErr
  | connError (msg : String)
  | tooManyRedirects
  | requestExc (msg : String)
  | otherExc (msg : String)
deriving DecidableEq

/-- Exception escaping a request, for the handler chain. -/
inductive NetExn where
  | sslError (msg : String)
  | timeoutErr
  | connError (msg : String)
  | tooManyRedirects
  | requestExc (msg : String)
  | otherExc (msg : String)
deriving DecidableEq

/-- Network oracle: what each of the four possible requests would produce
for the URL under probe. -/
structure Network where
  head_basic : NetResult
  get_basic : NetResult
  get_enhanced : NetResult
  get_noverify : NetResult
deriving DecidableEq

def liftNet : NetResult → Except NetExn HttpResponse
  | .resp r => .ok r
  | .sslError m => .error (.sslError m)
  | .timeoutErr => .error .timeoutErr
  | .connError m => .error (.connError m)
  | .tooManyRedirects => .error .tooManyRedirects
  | .requestExc m => .error (.requestExc m)
  | .otherExc m => .error (.otherExc m)

/-- Return value of `check_external_link`: the 4-tuple
`(is_valid, status_code, reason, details)`. -/
structure Outcome where
  is_valid : Bool
  status_code : Option Nat
  reason : String
  details : String
deriving DecidableEq

/-- Model of Python `str(e)[:n]` truncation. -/
def strTake (s : String) (n : Nat) : String := ⟨s.data.take n⟩

/-- Model of Python `s.lower()` for the ASCII header/error strings involved. -/
def strLower (s : String) : String := ⟨s.data.map Char.toLower⟩

def strContainsAux (needle : List Char) : List Char → Bool
  | [] => needle.isEmpty
  | c :: cs => List.isPrefixOf needle (c :: cs) || strContainsAux needle cs

/-- Model of Python `needle in hay` (substring containment). -/
def strContains (hay needle : String) : Bool :=
  needle.data.isEmpty || strContainsAux needle.data hay.data

/-- Embedding of `get_http_error_details` (lines 281-335).  The `url`
argument is parsed in the source only into a `domain` variable that is never
used afterwards, so it does not influence the result. -/
def get_http_error_details (status_code : Nat) (url : String)
    (response : Option HttpResponse) : String :=
  let cloudflare_detected :=
    match response with
    | some r => strContains (strLower r.server) "cloudflare" || r.cf_ray
    | none => false
  if status_code = 403 then
    "Access forbidden. "
      ++ (if cloudflare_detected then
            "Cloudflare protection detected - may require browser verification (captcha/challenge) or cookie acceptance. "
          else "")
      ++ "Possible causes: (1) Bot detection/WAF blocking automated requests, (2) Geographic restrictions, "
      ++ "(3) Requires authentication/session cookies, (4) IP-based blocking, (5) Cookie consent required. "
      ++ "Page may be accessible in a regular browser."
  else if status_code = 401 then
    "Authentication required. Page requires valid login credentials or API key."
  else if status_code = 404 then
    "Page not found. The URL does not exist on the server or has been moved/deleted."
  else if status_code = 429 then
    "Too many requests. Rate limiting is in effect - server is throttling requests from this client."
  else if status_code = 500 then
    "Internal server error. Server encountered an unexpected condition that prevented it from fulfilling the request."
  else if status_code = 502 then
    "Bad gateway. Server received invalid response from upstream server (gateway/proxy issue)."
  else if status_code = 503 then
    "Service unavailable. Server is temporarily unable to handle the request (maintenance, overload)."
  else if status_code = 504 then
    "Gateway timeout. Upstream server failed to respond in time."
  else if status_code = 410 then
    "Gone. Resource permanently deleted and will not be available again."
  else if status_code = 451 then
    "Unavailable for legal reasons. Access blocked due to legal demands (censorship, copyright, etc)."
  else if 400 ≤ status_code ∧ status_code < 500 then
    "Client error " ++ toString status_code ++ ". Issue with the request (malformed, unauthorized, or forbidden)."
  else if 500 ≤ status_code ∧ status_code < 600 then
    "Server error " ++ toString status_code ++ ". Server failed to fulfill a valid request."
  else
    "Unexpected HTTP status code " ++ toString status_code ++ "."

/-- Terminal verdict derivation from the final response (lines 237-246). -/
def classify_response (response : HttpResponse) (url : String) : Outcome :=
  if 200 ≤ response.status_code ∧ response.status_code < 300 then
    ⟨true, some response.status_code, "OK", ""⟩
  else if 300 ≤ response.status_code ∧ response.status_code < 400 then
    ⟨true, some response.status_code, "OK (Redirect)", ""⟩
  else
    ⟨false, some response.status_code, "HTTP " ++ toString response.status_code,
      get_http_error_details response.status_code url (some response)⟩

/-- Body of the outer `try` of `check_external_link` (lines 198-246): HEAD
with basic headers, GET fallback on `{403, 405, 501, 503}`, escalation with
enhanced headers and a session on a (possibly fallback) 403 — whose own
failure is swallowed by the inner bare `except`, letting the original 403
response stand — then verdict derivation. -/
def try_block (net : Network) (url : String) : Except NetExn Outcome :=
  match liftNet net.head_basic with
  | .error e => .error e
  | .ok r0 =>
    match if r0.status_code ∈ [403, 405, 501, 503] then liftNet net.get_basic
          else .ok r0 with
    | .error e => .error e
    | .ok response =>
      if response.status_code = 403 then
        match net.get_enhanced with
        | .resp retry_response =>
          if 200 ≤ retry_response.status_code ∧ retry_response.status_code < 400 then
            .ok ⟨true, some retry_response.status_code, "OK (Enhanced retry)",
              "Accessible with enhanced browser simulation"⟩
          else .ok (classify_response retry_response url)
        | _ => .ok (classify_response response url)
      else .ok (classify_response response url)

/-- Exception-handler chain of `check_external_link` (lines 248-278),
including the verification-disabled GET retry inside the SSL handler. -/
def handle_exc (net : Network) (url : String) (timeout : Nat) : NetExn → Outcome
  | .sslError msg =>
    (match net.get_noverify with
     | .resp response =>
       if 200 ≤ response.status_code ∧ response.status_code < 400 then
         ⟨true, some response.status_code, "OK (SSL Warning)",
           "SSL certificate verification failed but site is accessible"⟩
       else
         ⟨false, some response.status_code,
           "HTTP " ++ toString response.status_code ++ " (SSL Warning)",
           "SSL certificate issue. " ++ get_http_error_details response.status_code url (some response)⟩
     | _ =>
       ⟨false, none, "SSL error: " ++ strTake msg 50,
         "SSL/TLS handshake failed. Certificate may be expired, self-signed, or domain mismatch."⟩)
  | .timeoutErr =>
    ⟨false, none, "Timeout",
      "Request exceeded " ++ toString timeout ++ "s timeout. Server may be slow or unresponsive."⟩
  | .connError msg =>
    if strContains (strLower msg) "name or service not known"
        || strContains (strLower msg) "nodename nor servname provided" then
      ⟨false, none, "Connection error",
        "DNS resolution failed. Domain may not exist or DNS server is unreachable."⟩
    else if strContains (strLower msg) "connection refused" then
      ⟨false, none, "Connection error",
        "Connection refused. Server is not accepting connections on this port."⟩
    else if strContains (strLower msg) "no route to host" then
      ⟨false, none, "Connection error",
        "No route to host. Network is unreachable or firewall is blocking the connection."⟩
    else
      ⟨false, none, "Connection error",
        "Failed to establish connection. " ++ strTake msg 100⟩
  | .tooManyRedirects =>
    ⟨false, none, "Too many redirects",
      "Exceeded maximum number of redirects. May indicate a redirect loop."⟩
  | .requestExc msg =>
    ⟨false, none, "Request failed: " ++ strTake msg 50, strTake msg 200⟩
  | .otherExc msg =>
    ⟨false, none, "Unexpected error: " ++ strTake msg 50, strTake msg 200⟩

/-- The `try`/`except` portion of the probe as an exception-transparent
computation: `Except.error` would mean a requests exception escaping the
handler chain of lines 198-278.  It covers the function body from the skip
check onwards, on the assumption that the `parsed = urlparse(url)` call at
line 164 — which runs *before* the `try` — has succeeded; the raise path of
that call is modelled by `urlparse_invalid_ipv6`/`check_external_link_run`
below. -/
def check_external_link_exc (net : Network) (url : String) (timeout : Nat) :
    Except NetExn Outcome :=
  if urlscheme url ∈ ["mailto", "tel", "javascript"] then
    .ok ⟨true, none, "Skipped - not HTTP", "Not an HTTP(S) link"⟩
  else
    match try_block net url with
    | .ok outcome => .ok outcome
    | .error e => .ok (handle_exc net url timeout e)

/-- Embedding of `check_external_link` (lines 148-278) on URLs whose pre-try
`urlparse` call succeeds.  The second match arm is dead code: the handler
chain is exhaustive over the requests exceptions, so the exception channel
of `check_external_link_exc` is never used (`check_external_link_exc_ok`). -/
def check_external_link (net : Network) (url : String) (timeout : Nat) : Outcome :=
  match check_external_link_exc net url timeout with
  | .ok outcome => outcome
  | .error _ => ⟨false, none, "", ""⟩

def respOnly (status : Nat) : NetResult := NetResult.resp ⟨status, "", false⟩

example :
    check_external_link ⟨respOnly 200, respOnly 200, respOnly 200, respOnly 200⟩
      "https://a.example/" 30 = ⟨true, some 200, "OK", ""⟩ := by decide

example :
    check_external_link ⟨respOnly 404, respOnly 200, respOnly 200, respOnly 200⟩
      "https://a.example/" 30 =
      ⟨false, some 404, "HTTP 404",
        "Page not found. The URL does not exist on the server or has been moved/deleted."⟩ := by
  decide

example :
    check_external_link ⟨respOnly 405, respOnly 302, respOnly 200, respOnly 200⟩
      "https://a.example/" 30 = ⟨true, some 302, "OK (Redirect)", ""⟩ := by decide

example :
    check_external_link ⟨NetResult.timeoutErr, respOnly 200, respOnly 200, respOnly 200⟩
      "https://a.example/" 30 =
      ⟨false, none, "Timeout",
        "Request exceeded 30s timeout. Server may be slow or unresponsive."⟩ := by decide

example :
    check_external_link ⟨respOnly 200, respOnly 200, respOnly 200, respOnly 200⟩
      "mailto:a@b.example" 30 = ⟨true, none, "Skipped - not HTTP", "Not an HTTP(S) link"⟩ := by
  decide

theorem check_external_link_exc_ok (net : Network) (url : String) (timeout : Nat) :
    ∃ o, check_external_link_exc net url timeout = Except.ok o := by
  rw [check_external_link_exc]
  split
  · exact ⟨_, rfl⟩
  · rcases h : try_block net url with e | o
    · exact ⟨_, rfl⟩
    · exact ⟨_, rfl⟩

def net_403_retry404 : Network := ⟨respOnly 403, respOnly 403, respOnly 404, respOnly 200⟩

def net_403_retry200 : Network := ⟨respOnly 403, respOnly 403, respOnly 200, respOnly 200⟩

/-- Concrete refutation for C1: with the initial (GET-fallback) response 403
and the escalation response 404, the function reports `HTTP 404` — the
classification of the escalation attempt's response — not the original
`HTTP 403`. -/
theorem retry_error_reporting_counterexample :
    (check_external_link net_403_retry404 "https://a.example/" 30).reason = "HTTP 404"
    ∧ (check_external_link net_403_retry404 "https://a.example/" 30).status_code ≠ some 403 := by
  refine ⟨by decide, by decide⟩

/-- C1 (amended): when the initial (possibly GET-fallback) response has
status 403 and the escalation retry obtains a response with status outside
[200, 400), the function reports the classification of the escalation
attempt's response (`response = retry_response` in the source); the original
403 classification stands only when the escalation raises an exception. -/
theorem retry_failure_reports_retry_response :
    ∀ (net : Network) (url : String) (timeout : Nat) (r0 r1 rr : HttpResponse),
      urlscheme url ∉ ["mailto", "tel", "javascript"] →
      net.head_basic = NetResult.resp r0 →
      r0.status_code ∈ [403, 405, 501, 503] →
      net.get_basic = NetResult.resp r1 →
      r1.status_code = 403 →
      net.get_enhanced = NetResult.resp rr →
      ¬ (200 ≤ rr.status_code ∧ rr.status_code < 400) →
      check_external_link net url timeout = classify_response rr url := by
  intro net url timeout r0 r1 rr hscheme hhead hst hget h403 henh hrr
  have hexc : check_external_link_exc net url timeout = .ok (classify_response rr url) := by
    rw [check_external_link_exc, if_neg hscheme, try_block, hhead]
    simp only [liftNet]
    rw [if_pos hst, hget]
    simp only [liftNet]
    rw [if_pos h403, henh]
    simp [if_neg hrr]
  rw [check_external_link, hexc]

theorem retry_failure_reports_retry_response_witness :
    urlscheme "https://a.example/" ∉ ["mailto", "tel", "javascript"]
    ∧ check_external_link net_403_retry404 "https://a.example/" 30 =
        classify_response ⟨404, "", false⟩ "https://a.example/" :=
  ⟨by decide,
    retry_failure_reports_retry_response net_403_retry404 "https://a.example/" 30
      ⟨403, "", false⟩ ⟨403, "", false⟩ ⟨404, "", false⟩
      (by decide) rfl (by decide) rfl rfl rfl (by decide)⟩

/-- Concrete refutation for C5: on a 403 whose escalation retry returns 200
the reason is `OK (Enhanced retry)`, which does not contain the substring
`enhanced retry` (the `E` is capitalised). -/
theorem enhanced_retry_reason_counterexample :
    (check_external_link net_403_retry200 "https://a.example/" 30).is_valid = true
    ∧ (check_external_link net_403_retry200 "https://a.example/" 30).reason
        = "OK (Enhanced retry)"
    ∧ strContains (check_external_link net_403_retry200 "https://a.example/" 30).reason
        "enhanced retry" = false := by
  refine ⟨by decide, by decide, by decide⟩

/-- C5 (amended): for every probe whose initial (possibly GET-fallback)
response has status 403 and whose escalation retry returns status 200, the
outcome has `is_valid = true` and a reason containing the substring
`Enhanced retry` (so "enhanced retry" only up to letter case). -/
theorem enhanced_retry_success_reason :
    ∀ (net : Network) (url : String) (timeout : Nat) (r0 r1 rr : HttpResponse),
      urlscheme url ∉ ["mailto", "tel", "javascript"] →
      net.head_basic = NetResult.resp r0 →
      r0.status_code ∈ [403, 405, 501, 503] →
      net.get_basic = NetResult.resp r1 →
      r1.status_code = 403 →
      net.get_enhanced = NetResult.resp rr →
      rr.status_code = 200 →
      (check_external_link net url timeout).is_valid = true
      ∧ strContains (check_external_link net url timeout).reason "Enhanced retry" = true := by
  intro net url timeout r0 r1 rr hscheme hhead hst hget h403 henh h200
  have hb : 200 ≤ rr.status_code ∧ rr.status_code < 400 := by omega
  have hexc : check_external_link_exc net url timeout =
      .ok ⟨true, some rr.status_code, "OK (Enhanced retry)",
        "Accessible with enhanced browser simulation"⟩ := by
    rw [check_external_link_exc, if_neg hscheme, try_block, hhead]
    simp only [liftNet]
    rw [if_pos hst, hget]
    simp only [liftNet]
    rw [if_pos h403, henh]
    simp [if_pos hb]
  rw [check_external_link, hexc]
  constructor
  · rfl
  · show strContains "OK (Enhanced retry)" "Enhanced retry" = true
    decide

theorem enhanced_retry_success_reason_witness :
    urlscheme "https://a.example/" ∉ ["mailto", "tel", "javascript"]
    ∧ (check_external_link net_403_retry200 "https://a.example/" 30).is_valid = true
    ∧ strContains (check_external_link net_403_retry200 "https://a.example/" 30).reason
        "Enhanced retry" = true :=
  ⟨by decide,
    enhanced_retry_success_reason net_403_retry200 "https://a.example/" 30
      ⟨403, "", false⟩ ⟨403, "", false⟩ ⟨200, "", false⟩
      (by decide) rfl (by decide) rfl rfl rfl rfl⟩

theorem classify_response_status (r : HttpResponse) (url : String) :
    (classify_response r url).status_code = some r.status_code := by
  rw [classify_response]
  split
  · rfl
  · split
    · rfl
    · rfl

theorem classify_response_valid_iff (r : HttpResponse) (url : String) :
    (classify_response r url).is_valid = true ↔
      (200 ≤ r.status_code ∧ r.status_code < 400) := by
  by_cases h1 : 200 ≤ r.status_code ∧ r.status_code < 300
  · rw [classify_response, if_pos h1]
    simp only [true_iff]
    omega
  · rw [classify_response, if_neg h1]
    by_cases h2 : 300 ≤ r.status_code ∧ r.status_code < 400
    · rw [if_pos h2]
      simp only [true_iff]
      omega
    · rw [if_neg h2]
      simp only [Bool.false_eq_true, false_iff]
      omega

theorem handle_exc_valid_iff (net : Network) (url : String) (timeout : Nat)
    (e : NetExn) (s : Nat)
    (h : (handle_exc net url timeout e).status_code = some s) :
    ((handle_exc net url timeout e).is_valid = true ↔ (200 ≤ s ∧ s < 400)) := by
  cases e with
  | sslError msg =>
    cases hn : net.get_noverify with
    | resp r =>
      by_cases hb : 200 ≤ r.status_code ∧ r.status_code < 400
      · simp [handle_exc, hn, hb] at h ⊢
        omega
      · simp [handle_exc, hn, hb] at h ⊢
        omega
    | sslError m => simp [handle_exc, hn] at h
    | timeoutErr => simp [handle_exc, hn] at h
    | connError m => simp [handle_exc, hn] at h
    | tooManyRedirects => simp [handle_exc, hn] at h
    | requestExc m => simp [handle_exc, hn] at h
    | otherExc m => simp [handle_exc, hn] at h
  | timeoutErr => simp [handle_exc] at h
  | connError msg =>
    simp only [handle_exc] at h
    split at h
    · simp at h
    · split at h
      · simp at h
      · split at h
        · simp at h
        · simp at h
  | tooManyRedirects => simp [handle_exc] at h
  | requestExc msg => simp [handle_exc] at h
  | otherExc msg => simp [handle_exc] at h

theorem try_block_ok_valid_iff (net : Network) (url : String) (o : Outcome)
    (h : try_block net url = Except.ok o) (s : Nat) (hs : o.status_code = some s) :
    (o.is_valid = true ↔ (200 ≤ s ∧ s < 400)) := by
  have hclassify : ∀ r : HttpResponse, classify_response r url = o →
      (o.is_valid = true ↔ (200 ≤ s ∧ s < 400)) := by
    intro r ho
    subst ho
    rw [classify_response_status] at hs
    obtain rfl : r.status_code = s := by simpa using hs
    exact classify_response_valid_iff r url
  rw [try_block] at h
  cases hh : net.head_basic with
  | resp r0 =>
    rw [hh] at h
    by_cases hst : r0.status_code = 403 ∨ r0.status_code = 405 ∨
        r0.status_code = 501 ∨ r0.status_code = 503
    · cases hg : net.get_basic with
      | resp r1 =>
        rw [hg] at h
        by_cases h403 : r1.status_code = 403
        · cases he : net.get_enhanced with
          | resp rr =>
            rw [he] at h
            by_cases hb : 200 ≤ rr.status_code ∧ rr.status_code < 400
            · simp [liftNet, hst, h403, hb] at h
              subst h
              simp at hs ⊢
              omega
            · simp [liftNet, hst, h403, hb] at h
              exact hclassify rr h
          | sslError m =>
            rw [he] at h
            simp [liftNet, hst, h403] at h
            exact hclassify r1 h
          | timeoutErr =>
            rw [he] at h
            simp [liftNet, hst, h403] at h
            exact hclassify r1 h
          | connError m =>
            rw [he] at h
            simp [liftNet, hst, h403] at h
            exact hclassify r1 h
          | tooManyRedirects =>
            rw [he] at h
            simp [liftNet, hst, h403] at h
            exact hclassify r1 h
          | requestExc m =>
            rw [he] at h
            simp [liftNet, hst, h403] at h
            exact hclassify r1 h
          | otherExc m =>
            rw [he] at h
            simp [liftNet, hst, h403] at h
            exact hclassify r1 h
        · simp [liftNet, hst, h403] at h
          exact hclassify r1 h
      | sslError m => rw [hg] at h; simp [liftNet, hst] at h
      | timeoutErr => rw [hg] at h; simp [liftNet, hst] at h
      | connError m => rw [hg] at h; simp [liftNet, hst] at h
      | tooManyRedirects => rw [hg] at h; simp [liftNet, hst] at h
      | requestExc m => rw [hg] at h; simp [liftNet, hst] at h
      | otherExc m => rw [hg] at h; simp [liftNet, hst] at h
    · have h403 : ¬ r0.status_code = 403 := fun hq => hst (Or.inl hq)
      have h405 : ¬ r0.status_code = 405 := fun hq => hst (Or.inr (Or.inl hq))
      have h501 : ¬ r0.status_code = 501 := fun hq => hst (Or.inr (Or.inr (Or.inl hq)))
      have h503 : ¬ r0.status_code = 503 := fun hq => hst (Or.inr (Or.inr (Or.inr hq)))
      simp [liftNet, h403, h405, h501, h503] at h
      exact hclassify r0 h
  | sslError m => rw [hh] at h; simp [liftNet] at h
  | timeoutErr => rw [hh] at h; simp [liftNet] at h
  | connError m => rw [hh] at h; simp [liftNet] at h
  | tooManyRedirects => rw [hh] at h; simp [liftNet] at h
  | requestExc m => rw [hh] at h; simp [liftNet] at h
  | otherExc m => rw [hh] at h; simp [liftNet] at h

theorem check_external_link_valid_iff (net : Network) (url : String) (timeout : Nat)
    (s : Nat) (h : (check_external_link net url timeout).status_code = some s) :
    ((check_external_link net url timeout).is_valid = true ↔ (200 ≤ s ∧ s < 400)) := by
  obtain ⟨o, ho⟩ := check_external_link_exc_ok net url timeout
  have hco : check_external_link net url timeout = o := by
    rw [check_external_link, ho]
  rw [hco] at h ⊢
  rw [check_external_link_exc] at ho
  by_cases hsk : urlscheme url ∈ ["mailto", "tel", "javascript"]
  · rw [if_pos hsk] at ho
    simp only [Except.ok.injEq] at ho
    subst ho
    simp at h
  · rw [if_neg hsk] at ho
    rcases ht : try_block net url with e | o2
    · rw [ht] at ho
      simp only [Except.ok.injEq] at ho
      subst ho
      exact handle_exc_valid_iff net url timeout e s h
    · rw [ht] at ho
      simp only [Except.ok.injEq] at ho
      subst ho
      exact try_block_ok_valid_iff net url o2 ht s h

theorem check_external_link_primary (net : Network) (url : String) (timeout : Nat)
    (r : HttpResponse)
    (hsk : urlscheme url ∉ ["mailto", "tel", "javascript"])
    (hh : net.head_basic = NetResult.resp r)
    (hst : r.status_code ∉ [403, 405, 501, 503]) :
    check_external_link net url timeout = classify_response r url := by
  have hor : ¬ (r.status_code = 403 ∨ r.status_code = 405 ∨
      r.status_code = 501 ∨ r.status_code = 503) := by simpa using hst
  have h403 : ¬ r.status_code = 403 := fun hq => hor (Or.inl hq)
  have h405 : ¬ r.status_code = 405 := fun hq => hor (Or.inr (Or.inl hq))
  have h501 : ¬ r.status_code = 501 := fun hq => hor (Or.inr (Or.inr (Or.inl hq)))
  have h503 : ¬ r.status_code = 503 := fun hq => hor (Or.inr (Or.inr (Or.inr hq)))
  have hexc : check_external_link_exc net url timeout = .ok (classify_response r url) := by
    rw [check_external_link_exc, if_neg hsk, try_block, hh]
    simp [liftNet, h403, h405, h501, h503]
  rw [check_external_link, hexc]

def net_404 : Network := ⟨respOnly 404, respOnly 200, respOnly 200, respOnly 200⟩

/-- Concrete refutation for C3: a probe that obtains a final HTTP response
with status 200 (via the 403 escalation) has `is_valid = true` but reason
`OK (Enhanced retry)`, not `OK` as the claim's reason table requires. -/
theorem final_status_reason_counterexample :
    (check_external_link net_403_retry200 "https://a.example/" 30).status_code = some 200
    ∧ (check_external_link net_403_retry200 "https://a.example/" 30).reason ≠ "OK" := by
  refine ⟨by decide, by decide⟩

/-- C3 (amended): whenever the outcome carries a final observed status `s`,
`is_valid = true` holds exactly when `s ∈ [200, 400)`; and the claim's
specific reason strings — `OK` for [200, 300), `OK (Redirect)` for
[300, 400), `HTTP {s}` with the per-status detail otherwise — are produced
by the terminal classifier, hence by every probe whose final response comes
from the primary HEAD attempt (no fallback, no escalation, no SSL bypass);
the escalation-success and SSL-bypass paths instead qualify the reason with
`(Enhanced retry)` or `(SSL Warning)`. -/
theorem final_status_classification :
    (∀ (net : Network) (url : String) (timeout : Nat) (s : Nat),
        (check_external_link net url timeout).status_code = some s →
        ((check_external_link net url timeout).is_valid = true ↔ (200 ≤ s ∧ s < 400)))
    ∧ (∀ (net : Network) (url : String) (timeout : Nat) (r : HttpResponse),
        urlscheme url ∉ ["mailto", "tel", "javascript"] →
        net.head_basic = NetResult.resp r →
        r.status_code ∉ [403, 405, 501, 503] →
        check_external_link net url timeout = classify_response r url)
    ∧ (∀ (r : HttpResponse) (url : String),
        (200 ≤ r.status_code ∧ r.status_code < 300 →
          classify_response r url = ⟨true, some r.status_code, "OK", ""⟩)
        ∧ (300 ≤ r.status_code ∧ r.status_code < 400 →
          classify_response r url = ⟨true, some r.status_code, "OK (Redirect)", ""⟩)
        ∧ (¬ (200 ≤ r.status_code ∧ r.status_code < 400) →
          classify_response r url =
            ⟨false, some r.status_code, "HTTP " ++ toString r.status_code,
              get_http_error_details r.status_code url (some r)⟩)) := by
  refine ⟨check_external_link_valid_iff, check_external_link_primary, ?_⟩
  intro r url
  refine ⟨?_, ?_, ?_⟩
  · intro hb
    rw [classify_response, if_pos hb]
  · intro hb
    rw [classify_response, if_neg (by omega), if_pos hb]
  · intro hb
    rw [classify_response, if_neg (by omega), if_neg (by omega)]

theorem final_status_classification_witness :
    (check_external_link net_404 "https://a.example/" 30).status_code = some 404
    ∧ ((check_external_link net_404 "https://a.example/" 30).is_valid = true ↔
        (200 ≤ 404 ∧ 404 < 400)) :=
  ⟨by decide, final_status_classification.1 net_404 "https://a.example/" 30 404 (by decide)⟩

/-!
Concurrent verification loop (`util/links-check.py`, `write_dead_link`
lines 379-386, `check_external_link_task` lines 388-400, and the completion
loop lines 484-513).

`as_completed` yields each submitted future exactly once, in an order that
depends on the scheduler and the network: the loop is therefore modelled as
a fold over an arbitrary permutation of the task list.  `write_dead_link`
runs under `csv_lock`, so one completion appends at most one row and bumps
the counters atomically; the embedded task function never raises, so the
`except` arm of the loop is dead.
-/

/-- One row of `links-dead.csv`. -/
structure DeadRow where
  source_file : String
  link : String
  reason : String
  resolved_path : String
  reason_details : String
deriving DecidableEq

/-- Embedding of `check_external_link_task`: probe the link, return `none`
for a valid link and the CSV row for a dead one, with the `({status})`
suffix added only for a truthy (non-`None`, nonzero) status code. -/
def check_external_link_task (net : Network) (timeout : Nat)
    (source_path link : String) : Option DeadRow :=
  let r := check_external_link net link timeout
  if r.is_valid then none
  else
    let status_info :=
      match r.status_code with
      | some s => if s ≠ 0 then " (" ++ toString s ++ ")" else ""
      | none => ""
    some ⟨source_path, link, r.reason ++ status_info, link, r.details⟩

/-- State of the completion loop: `checked_count`, `dead_links_count`, and
the rows written so far (in completion order). -/
structure LoopState where
  checked_count : Nat
  dead_links_count : Nat
  rows : List DeadRow
deriving DecidableEq

/-- One `as_completed` iteration: count the completion and, for a dead link,
append its row under the lock (`write_dead_link`). -/
def completion_step (netOf : String × String → Network) (timeout : Nat)
    (st : LoopState) (t : String × String) : LoopState :=
  match check_external_link_task (netOf t) timeout t.1 t.2 with
  | some row => ⟨st.checked_count + 1, st.dead_links_count + 1, st.rows ++ [row]⟩
  | none => ⟨st.checked_count + 1, st.dead_links_count, st.rows⟩

/-- The completion loop over the futures in the order they complete. -/
def run_completions (netOf : String × String → Network) (timeout : Nat)
    (order : List (String × String)) : LoopState :=
  order.foldl (completion_step netOf timeout) ⟨0, 0, []⟩

theorem run_completions_characterisation (netOf : String × String → Network)
    (timeout : Nat) (order : List (String × String)) :
    run_completions netOf timeout order =
      ⟨order.length,
        (order.filterMap (fun t => check_external_link_task (netOf t) timeout t.1 t.2)).length,
        order.filterMap (fun t => check_external_link_task (netOf t) timeout t.1 t.2)⟩ := by
  have key : ∀ (l : List (String × String)) (st : LoopState),
      l.foldl (completion_step netOf timeout) st =
        ⟨st.checked_count + l.length,
          st.dead_links_count +
            (l.filterMap (fun t => check_external_link_task (netOf t) timeout t.1 t.2)).length,
          st.rows ++ l.filterMap (fun t => check_external_link_task (netOf t) timeout t.1 t.2)⟩ := by
    intro l
    induction l with
    | nil =>
      intro st
      simp
    | cons t ts ih =>
      intro st
      rw [List.foldl_cons, completion_step]
      cases htask : check_external_link_task (netOf t) timeout t.1 t.2 with
      | some row =>
        rw [ih]
        simp [List.filterMap_cons, htask]
        omega
      | none =>
        rw [ih]
        simp [List.filterMap_cons, htask]
        omega
  rw [run_completions, key]
  simp

/-- C9: submitting N external-link tasks and consuming their completions in
any order (any permutation of the task list, which is what `as_completed`
can yield for any pool size 1 ≤ W ≤ N) produces exactly N counted
completions, and the rows written are, up to completion order, exactly the
failing outcomes of the tasks — none lost, none duplicated; the dead-link
counter always equals the number of rows written. -/
theorem completion_loop_no_lost_rows :
    ∀ (tasks order : List (String × String)) (netOf : String × String → Network)
      (timeout W : Nat),
      1 ≤ W → W ≤ tasks.length → order.Perm tasks →
      (run_completions netOf timeout order).checked_count = tasks.length
      ∧ (run_completions netOf timeout order).rows.Perm
          (tasks.filterMap (fun t => check_external_link_task (netOf t) timeout t.1 t.2))
      ∧ (run_completions netOf timeout order).dead_links_count =
          (run_completions netOf timeout order).rows.length := by
  intro tasks order netOf timeout W hw1 hw2 hperm
  rw [run_completions_characterisation]
  exact ⟨hperm.length_eq, hperm.filterMap _, rfl⟩

def tasks_pair : List (String × String) :=
  [("a.html", "https://a.example/"), ("b.html", "https://b.example/")]

theorem completion_loop_no_lost_rows_witness :
    1 ≤ 1 ∧ 1 ≤ tasks_pair.length
    ∧ (tasks_pair.reverse).Perm tasks_pair
    ∧ ((run_completions (fun _ => net_404) 30 tasks_pair.reverse).checked_count =
          tasks_pair.length
      ∧ (run_completions (fun _ => net_404) 30 tasks_pair.reverse).rows.Perm
          (tasks_pair.filterMap
            (fun t => check_external_link_task ((fun _ => net_404) t) 30 t.1 t.2))
      ∧ (run_completions (fun _ => net_404) 30 tasks_pair.reverse).dead_links_count =
          (run_completions (fun _ => net_404) 30 tasks_pair.reverse).rows.length) :=
  ⟨by decide, by decide, List.reverse_perm tasks_pair,
    completion_loop_no_lost_rows tasks_pair tasks_pair.reverse (fun _ => net_404) 30 1
      (by decide) (by decide) (List.reverse_perm tasks_pair)⟩

/-!
Startup sequence of `main()` (`util/links-check.py`, lines 525-603), up to
the call into `check_links`.  The filesystem facts it consults are passed as
booleans; `script_dir` is the working directory.  Every `return` in `main`
is a plain Python `return` and the script never calls `sys.exit`, so the
process exit status is 0 on each of these paths.  Messages printed by
`check_links` and later are beyond the modelled prefix; the
`reached_check_links` flag records that the run got that far.  The generic
(non-`PermissionError`) failure branch of the CSV deletion is not modelled.
-/

/-- Observable trace of one `main()` startup. -/
structure MainTrace where
  messages : List String
  reached_check_links : Bool
  exit_code : Nat
deriving DecidableEq

/-- Embedding of `main()` up to the `check_links` call: argument validation,
startup banner, manifest-existence check, and CSV deletion. -/
def main_run (script_dir : String) (workers timeout : Int)
    (manifest_exists csv_exists csv_locked : Bool) : MainTrace :=
  if workers < 1 then ⟨["Error: Number of workers must be at least 1"], false, 0⟩
  else if timeout < 1 then ⟨["Error: Timeout must be at least 1 second"], false, 0⟩
  else
    let startup := ["Checking links from links-list.json...",
      "Configuration: " ++ toString workers ++ " parallel workers, "
        ++ toString timeout ++ "s timeout"]
    if ¬ manifest_exists then
      ⟨startup ++ ["Error: " ++ join_path script_dir "links-list.json" ++ " not found!",
        "Please run links-enum.py first to generate the links list."], false, 0⟩
    else if csv_exists ∧ csv_locked then
      ⟨startup ++ ["Warning: Could not delete links-dead.csv - file is locked!",
        "The file may be open in another program. Please close it and try again."], false, 0⟩
    else
      ⟨startup ++ (if csv_exists then ["Deleted previous links-dead.csv"] else []), true, 0⟩

/-- Concrete refutation for C7: with the manifest missing, `main` prints the
operator message and stops before `check_links`, but the process exit status
is 0 (plain `return`, no `sys.exit`), not nonzero. -/
theorem missing_manifest_exit_code_counterexample :
    (main_run "/site" 32 30 false false false).exit_code = 0
    ∧ (main_run "/site" 32 30 false false false).reached_check_links = false
    ∧ "Error: /site/links-list.json not found!"
        ∈ (main_run "/site" 32 30 false false false).messages := by
  refine ⟨by decide, by decide, by decide⟩

/-- C7 (amended): when the manifest `links-list.json` does not exist (and the
worker/timeout arguments pass validation), the program prints a clear
operator message naming the missing file and aborts before any network
activity — but it exits with status 0, since `main` ends in a plain
`return` and never calls `sys.exit`. -/
theorem missing_manifest_aborts :
    ∀ (script_dir : String) (workers timeout : Int) (csv_exists csv_locked : Bool),
      1 ≤ workers → 1 ≤ timeout →
      (main_run script_dir workers timeout false csv_exists csv_locked).reached_check_links
          = false
      ∧ ("Error: " ++ join_path script_dir "links-list.json" ++ " not found!")
          ∈ (main_run script_dir workers timeout false csv_exists csv_locked).messages
      ∧ (main_run script_dir workers timeout false csv_exists csv_locked).exit_code = 0 := by
  intro sd w t ce cl hw ht
  rw [main_run, if_neg (by omega), if_neg (by omega), if_pos (by simp)]
  refine ⟨rfl, ?_, rfl⟩
  simp

theorem missing_manifest_aborts_witness :
    (1 : Int) ≤ 32 ∧ (1 : Int) ≤ 30
    ∧ ((main_run "/site" 32 30 false false false).reached_check_links = false
      ∧ ("Error: " ++ join_path "/site" "links-list.json" ++ " not found!")
          ∈ (main_run "/site" 32 30 false false false).messages
      ∧ (main_run "/site" 32 30 false false false).exit_code = 0) :=
  ⟨by decide, by decide,
    missing_manifest_aborts "/site" 32 30 false false (by decide) (by decide)⟩

/-!
Exception behaviour of `check_external_link` including the pre-`try`
`parsed = urlparse(url)` call at line 164.  CPython's `urlsplit` contains a
single `raise` reachable from a string argument: after optional scheme
removal, when the remainder starts with `//`, the netloc (the text up to
the first `/`, `?` or `#`) must contain either both or neither of `[` and
`]`, else `ValueError('Invalid IPv6 URL')` is raised — e.g. for
`http://[`.  Since line 164 runs before the `try:` of line 198, that
exception propagates out of `check_external_link` to its caller.
-/

/-- Exception escaping `check_external_link` itself. -/
inductive PyExn where
  | valueError (msg : String)
deriving DecidableEq

/-- Model of the `Invalid IPv6 URL` raise condition of CPython `urlsplit`:
scheme removal as in `urlscheme`, then the mismatched-bracket test on the
netloc of a `//`-remainder.  The control-character preprocessing of recent
CPython versions is not modelled (none of the URLs involved contains such
characters). -/
def urlparse_invalid_ipv6 (url : String) : Bool :=
  let rest :=
    if urlscheme url = "" then url.data
    else (url.data.dropWhile (fun c => !(c == ':'))).drop 1
  match rest with
  | '/' :: '/' :: r =>
    let netloc := r.takeWhile (fun c => !(c == '/' || c == '?' || c == '#'))
    (netloc.contains '[' && !(netloc.contains ']'))
      || (netloc.contains ']' && !(netloc.contains '['))
  | _ => false

/-- Embedding of a whole `check_external_link` call as seen by its caller:
the pre-`try` `urlparse` raise propagates as `Except.error`, and on every
URL that parses, the body runs the skip check and the `try`/`except`
machinery of `check_external_link_exc`. -/
def check_external_link_run (net : Network) (url : String) (timeout : Nat) :
    Except PyExn Outcome :=
  if urlparse_invalid_ipv6 url then Except.error (PyExn.valueError "Invalid IPv6 URL")
  else
    if urlscheme url ∈ ["mailto", "tel", "javascript"] then
      .ok ⟨true, none, "Skipped - not HTTP", "Not an HTTP(S) link"⟩
    else
      match try_block net url with
      | .ok outcome => .ok outcome
      | .error e => .ok (handle_exc net url timeout e)

/-- Concrete refutation for C2: for the input URL `http://[` the
`urlparse` call at line 164 raises `ValueError('Invalid IPv6 URL')` outside
the `try`, so the exception propagates to the caller and no structured
4-tuple is returned — for any network behaviour and timeout. -/
theorem urlparse_valueerror_counterexample :
    urlparse_invalid_ipv6 "http://[" = true
    ∧ check_external_link_run net_404 "http://[" 30 =
        Except.error (PyExn.valueError "Invalid IPv6 URL") := by
  refine ⟨by decide, ?_⟩
  rw [check_external_link_run, if_pos (by decide)]

/-- C2 (amended): the pre-`try` `urlparse` call is the only exception
escape: for every network behaviour, timeout, and URL on which that call
does not raise (no mismatched netloc brackets), `check_external_link`
returns a structured `(is_valid, status_code, reason, details)` outcome on
every code path — SSL errors, timeouts, connection errors, redirect loops
and any other request exception included — and propagates nothing to the
caller. -/
theorem check_external_link_total_after_parse :
    ∀ (net : Network) (url : String) (timeout : Nat),
      urlparse_invalid_ipv6 url = false →
      check_external_link_run net url timeout =
        Except.ok (check_external_link net url timeout) := by
  intro net url timeout hv
  rw [check_external_link_run, if_neg (by simp [hv]), check_external_link,
    check_external_link_exc]
  by_cases hsk : urlscheme url ∈ ["mailto", "tel", "javascript"]
  · rw [if_pos hsk, if_pos hsk]
  · rw [if_neg hsk, if_neg hsk]
    rcases h : try_block net url with e | o
    · rfl
    · rfl

theorem check_external_link_total_after_parse_witness :
    urlparse_invalid_ipv6 "https://a.example/" = false
    ∧ check_external_link_run net_404 "https://a.example/" 30 =
        Except.ok (check_external_link net_404 "https://a.example/" 30) :=
  ⟨by decide,
    check_external_link_total_after_parse net_404 "https://a.example/" 30 (by decide)⟩
